import Mathlib

/-!
Shallow embedding of the conversation / messaging / offer-negotiation core of
the marketplace backend (Express + Mongoose routes), together with theorems
checking the specification's claims against it.

Sources embedded:
* the block routes (`POST /block/:userId`),
* the conversation routes (`GET`/`POST /:conversationId/messages`,
  `POST /:conversationId/product-reply`),
* the product offer routes (`POST /:productId/offers`,
  `POST /offers/:offerId/accept`, `POST /offers/:offerId/decline`).

Mongoose documents become Lean structures; the mutable document plus `save()`
becomes explicit state passing (a handler returns the persisted document and
the HTTP response).  A `Notification.create` that may fail is modelled by a
boolean `notifyOk` parameter: when it is `false` the `await` throws, control
jumps to the route's `catch` block (a 500 response), and only the documents
already `save()`d before that point are persisted.
-/

namespace OlxCore

/-- User identities (Mongo ObjectIds) are abstracted to naturals. -/
abbrev UserId := Nat

/-- The BlockList collection: one entry per directed `{blocker, blocked}` pair. -/
abbrev BlockRegistry := List (UserId × UserId)

/-- One message subdocument of a conversation, as pushed by the send routes.
The `type` field is the schema's enum `message`/`product`. -/
structure Message where
  messageId : Nat
  sender : UserId
  text : String
  type : String
  replyTo : Option Nat
  productId : Option Nat
  createdAt : Nat
deriving DecidableEq

/-- A conversation document: two participants, embedded messages, and the
per-conversation `nextMessageId` counter (schema default 1). -/
structure Conversation where
  participants : List UserId
  messages : List Message
  nextMessageId : Nat
deriving DecidableEq

/-- One `offerRequests` subdocument of a product: Mongo subdocument id,
the offering buyer, and the offered price. -/
structure OfferRequest where
  oid : Nat
  buyer : UserId
  offerPrice : Int
deriving DecidableEq

/-- The product fields touched by the offer routes. -/
structure Product where
  pid : Nat
  seller : UserId
  name : String
  price : Int
  status : String
  buyer : Option UserId
  transactionDate : Option Nat
  offerRequests : List OfferRequest
deriving DecidableEq

/-- A notification record as created by `Notification.create`. -/
structure Notification where
  userId : UserId
  type : String
  message : String
  productId : Option Nat
deriving DecidableEq

/-! ## Block registry (`routes/blockRoutes.js`) -/

/-- Responses of the block route. -/
inductive BlockResponse where
  | badRequest (message : String)
  | ok (message : String)
deriving DecidableEq

/-- Has `blocker` blocked `blocked`?  (`BlockList.findOne({blocker, blocked})`). -/
def isBlockedBy (blocks : BlockRegistry) (blocker blocked : UserId) : Bool :=
  blocks.contains (blocker, blocked)

/-- Handler of `POST /block/:userId`: reject self-block, reject an existing
block with an "already blocked" error, otherwise insert the entry. -/
def blockUser (blocks : BlockRegistry) (caller target : UserId) :
    BlockRegistry × BlockResponse :=
  if caller == target then
    (blocks, .badRequest "You cannot block yourself")
  else if isBlockedBy blocks caller target then
    (blocks, .badRequest "User is already blocked")
  else
    (blocks ++ [(caller, target)], .ok "User blocked successfully")

/-! ## Conversation store (`routes/conversations.js`) -/

/-- The other participant of a conversation relative to `user`:
`conversation.participants.find(p => p.toString() !== user)`. -/
def findOtherParticipant (conv : Conversation) (user : UserId) : Option UserId :=
  conv.participants.find? (fun p => !(p == user))

/-- Has the other participant of `conv` blocked `user`?  This is the
`BlockList.findOne({blocker: otherUserId, blocked: user})` query used by both
the send route and the fetch route. -/
def otherHasBlocked (blocks : BlockRegistry) (conv : Conversation) (user : UserId) : Bool :=
  match findOtherParticipant conv user with
  | some other => isBlockedBy blocks other user
  | none => false

/-- The id allocated to a send: `conversation.nextMessageId || 1`. -/
def allocId (conv : Conversation) : Nat :=
  if conv.nextMessageId = 0 then 1 else conv.nextMessageId

/-- The text-message subdocument built by `POST /:conversationId/messages`. -/
def mkTextMessage (conv : Conversation) (sender : UserId) (text : String)
    (replyTo : Option Nat) (now : Nat) : Message :=
  { messageId := allocId conv, sender := sender, text := text, type := "message",
    replyTo := replyTo, productId := none, createdAt := now }

/-- The conversation as persisted by a successful `POST /:conversationId/messages`:
`nextMessageId` is incremented unconditionally, and the message is pushed only
when the recipient has not blocked the sender. -/
def storedAfterPost (blocks : BlockRegistry) (conv : Conversation) (sender : UserId)
    (text : String) (replyTo : Option Nat) (now : Nat) : Conversation :=
  { conv with
    nextMessageId := allocId conv + 1,
    messages :=
      if otherHasBlocked blocks conv sender then conv.messages
      else conv.messages ++ [mkTextMessage conv sender text replyTo now] }

/-- Responses of the send-message route. -/
inductive PostResponse where
  | missingText
  | convNotFound
  | accessDenied
  | sent (messageId : Nat) (tempId : Option Nat)
deriving DecidableEq

/-- Handler of `POST /:conversationId/messages`.  Checks, in source order:
non-empty text, conversation found, sender is a participant; then allocates
`messageId = nextMessageId || 1`, increments the counter unconditionally,
pushes the message only if the recipient has not blocked the sender, and
returns the allocated id (with the client's `tempId`) in both cases. -/
def postMessage (blocks : BlockRegistry) (conv? : Option Conversation) (sender : UserId)
    (text : String) (replyTo tempId : Option Nat) (now : Nat) :
    Option Conversation × PostResponse :=
  if text = "" then
    (conv?, .missingText)
  else
    match conv? with
    | none => (none, .convNotFound)
    | some conv =>
      if conv.participants.contains sender then
        (some (storedAfterPost blocks conv sender text replyTo now),
         .sent (allocId conv) tempId)
      else
        (some conv, .accessDenied)

/-- Arguments of one `PostMessage` call. -/
structure PostCall where
  sender : UserId
  text : String
  replyTo : Option Nat
  tempId : Option Nat
  now : Nat

/-- The message id carried by a response, if any. -/
def emittedId : PostResponse → List Nat
  | .sent i _ => [i]
  | _ => []

/-- Run a sequence of `PostMessage` calls against one conversation, threading
the persisted state, and collect the message ids returned to the senders. -/
def allocatedIds (blocks : BlockRegistry) : Option Conversation → List PostCall → List Nat
  | _, [] => []
  | conv?, call :: rest =>
    emittedId (postMessage blocks conv? call.sender call.text call.replyTo call.tempId call.now).2 ++
      allocatedIds blocks
        (postMessage blocks conv? call.sender call.text call.replyTo call.tempId call.now).1 rest

/-- Responses of the fetch-messages route. -/
inductive FetchResponse where
  | convNotFound
  | accessDenied
  | ok (messages : List Message)
deriving DecidableEq

/-- The candidate messages before visibility filtering: all stored messages,
or those with `messageId > lastId` when the cursor is given. -/
def candidateMessages (conv : Conversation) (lastId : Option Nat) : List Message :=
  match lastId with
  | some l => conv.messages.filter (fun m => decide (l < m.messageId))
  | none => conv.messages

/-- The filter applied when the other party has blocked the reader: keep only
the reader's own messages and product-kind messages. -/
def visibleToBlocked (msgs : List Message) (reader : UserId) : List Message :=
  msgs.filter (fun m => m.sender == reader || m.type == "product")

/-- Handler of `GET /:conversationId/messages`: conversation found, reader a
participant, cursor filter, then the block-visibility filter. -/
def fetchMessages (blocks : BlockRegistry) (conv? : Option Conversation)
    (reader : UserId) (lastId : Option Nat) : FetchResponse :=
  match conv? with
  | none => .convNotFound
  | some conv =>
    if conv.participants.contains reader then
      if otherHasBlocked blocks conv reader then
        .ok (visibleToBlocked (candidateMessages conv lastId) reader)
      else
        .ok (candidateMessages conv lastId)
    else
      .accessDenied

/-- Responses of the product-reply route. -/
inductive ProductReplyResponse where
  | missingProductId
  | convNotFound
  | accessDenied
  | sent (messageId : Nat)
deriving DecidableEq

/-- The product-preview message subdocument built by
`POST /:conversationId/product-reply`. -/
def mkProductMessage (conv : Conversation) (sender : UserId) (pid : Nat)
    (now : Nat) : Message :=
  { messageId := allocId conv, sender := sender, text := "Product Reply",
    type := "product", replyTo := none, productId := some pid, createdAt := now }

/-- Handler of `POST /:conversationId/product-reply`.  Note that it takes the
block registry as ambient state but never queries it: the message is pushed
and the counter incremented unconditionally for any participant sender. -/
def postProductReply (blocks : BlockRegistry) (conv? : Option Conversation)
    (sender : UserId) (productId? : Option Nat) (now : Nat) :
    Option Conversation × ProductReplyResponse :=
  match productId? with
  | none => (conv?, .missingProductId)
  | some pid =>
    match conv? with
    | none => (none, .convNotFound)
    | some conv =>
      if conv.participants.contains sender then
        (some { conv with
                 messages := conv.messages ++ [mkProductMessage conv sender pid now],
                 nextMessageId := allocId conv + 1 },
         .sent (allocId conv))
      else
        (some conv, .accessDenied)

/-! ## Offer negotiation (`routes/products.js`) -/

/-- Responses of the offer routes. -/
inductive OfferResponse where
  | badRequest (error : String)
  | productNotFound
  | ok (message : String)
  | serverError
deriving DecidableEq

/-- Handler of `POST /:productId/offers` (make an offer).  `offerPrice?` is
`none` when the body price is missing or not a number; the source's falsy
check also rejects a zero price, and nothing else: there is no seller check
and no product-status check.  Any existing offer from the caller is removed
and the new one appended, the product is saved, and only then the seller
notification is created — so a notification failure (`notifyOk = false`)
leaves the saved offer in place but answers with the catch-all 500. -/
def makeOffer (notifyOk : Bool) (product? : Option Product) (caller : UserId)
    (callerName : String) (offerPrice? : Option Int) (newOid : Nat) :
    Option Product × List Notification × OfferResponse :=
  match offerPrice? with
  | none => (product?, [], .badRequest "Valid offer price is required")
  | some price =>
    if price == 0 then
      (product?, [], .badRequest "Valid offer price is required")
    else
      match product? with
      | none => (none, [], .productNotFound)
      | some product =>
        let saved :=
          { product with
            offerRequests :=
              product.offerRequests.filter (fun o => !(o.buyer == caller)) ++
                [{ oid := newOid, buyer := caller, offerPrice := price }] }
        if notifyOk then
          (some saved,
           [{ userId := product.seller, type := "offer_received",
              message := "You received an offer of " ++ toString price ++ " for " ++
                product.name ++ " from " ++ callerName,
              productId := some product.pid }],
           .ok "Offer submitted successfully")
        else
          (some saved, [], .serverError)

/-- Handler of `POST /offers/:offerId/accept`.  The caller is never compared
with the seller.  When the offer subdocument is found, the buyer notification
is created first, then status/buyer/transactionDate are set and the whole
offer list is cleared, then the product is saved; when it is not found, the
unchanged product is saved and the same success response is returned.  A
notification failure happens before any mutation is saved, so the persisted
product is unchanged and the response is the catch-all 500. -/
def acceptOffer (notifyOk : Bool) (product? : Option Product) (offerId : Nat)
    (caller : UserId) (now : Nat) :
    Option Product × List Notification × OfferResponse :=
  match product? with
  | none => (none, [], .productNotFound)
  | some product =>
    match product.offerRequests.find? (fun o => o.oid == offerId) with
    | some offer =>
      if notifyOk then
        (some { product with
                status := "sold",
                buyer := some offer.buyer,
                transactionDate := some now,
                offerRequests := [] },
         [{ userId := offer.buyer, type := "offer_accepted",
            message := "Your offer for " ++ product.name ++ " was accepted!",
            productId := some product.pid }],
         .ok "Offer accepted successfully")
      else
        (some product, [], .serverError)
    | none => (some product, [], .ok "Offer accepted successfully")

/-- Handler of `POST /offers/:offerId/decline`.  The caller is never compared
with the seller.  When the offer is found its buyer is notified first, then
the offer is filtered out and the product saved; when it is not found the
filter is a no-op and the same success response is returned.  A notification
failure happens before the save, so the persisted product is unchanged. -/
def declineOffer (notifyOk : Bool) (product? : Option Product) (offerId : Nat)
    (caller : UserId) :
    Option Product × List Notification × OfferResponse :=
  match product? with
  | none => (none, [], .productNotFound)
  | some product =>
    match product.offerRequests.find? (fun o => o.oid == offerId) with
    | some offer =>
      if notifyOk then
        (some { product with
                offerRequests := product.offerRequests.filter (fun o => !(o.oid == offerId)) },
         [{ userId := offer.buyer, type := "offer_rejected",
            message := "Your offer for " ++ product.name ++ " was rejected",
            productId := some product.pid }],
         .ok "Offer rejected successfully")
      else
        (some product, [], .serverError)
    | none =>
      (some { product with
              offerRequests := product.offerRequests.filter (fun o => !(o.oid == offerId)) },
       [], .ok "Offer rejected successfully")

/-! ## Concrete fixtures used by witnesses and counterexamples -/

/-- A fresh conversation between users 1 and 2. -/
def convAB : Conversation :=
  { participants := [1, 2], messages := [], nextMessageId := 1 }

/-- A registry where user 2 has blocked user 1. -/
def blocksBA : BlockRegistry := [(2, 1)]

/-- A fresh available product sold by user 5. -/
def prodW : Product :=
  { pid := 10, seller := 5, name := "Chair", price := 1000, status := "available",
    buyer := none, transactionDate := none, offerRequests := [] }

/-- The product `prodW` carrying one live offer (oid 1) from buyer 3. -/
def prodOffered : Product :=
  { prodW with offerRequests := [{ oid := 1, buyer := 3, offerPrice := 500 }] }

/-- A product that is already sold (fixture for counterexamples). -/
def prodSoldW : Product :=
  { pid := 11, seller := 5, name := "Desk", price := 800, status := "sold",
    buyer := some 3, transactionDate := some 20, offerRequests := [] }

/-- The conversation between users 1 and 2 after "hi" was stored and a second
send was suppressed (counter at 3). -/
def convAfterHi : Conversation :=
  { participants := [1, 2],
    messages := [{ messageId := 1, sender := 1, text := "hi", type := "message",
                   replyTo := none, productId := none, createdAt := 0 }],
    nextMessageId := 3 }

/-- The product state reached by: buyer 3 offers 500 on the fresh `prodW`,
someone accepts that offer (product sold, offers cleared), then buyer 4
offers 600 on the now-sold product. -/
def soldThenOffered : Option Product :=
  (makeOffer true
    ((acceptOffer true
      ((makeOffer true (some prodW) 3 "A" (some 500) 1).1)
      1 5 20).1)
    4 "B" (some 600) 2).1

/-! ## Helper lemmas -/

/-- The three possible outcomes of a send into an existing conversation. -/
theorem postMessage_split (blocks : BlockRegistry) (conv : Conversation) (sender : UserId)
    (text : String) (replyTo tempId : Option Nat) (now : Nat) :
    postMessage blocks (some conv) sender text replyTo tempId now =
        (some conv, .missingText) ∨
    postMessage blocks (some conv) sender text replyTo tempId now =
        (some conv, .accessDenied) ∨
    postMessage blocks (some conv) sender text replyTo tempId now =
        (some (storedAfterPost blocks conv sender text replyTo now),
         .sent (allocId conv) tempId) := by
  unfold postMessage
  by_cases h : text = ""
  · exact Or.inl (by simp [h])
  · by_cases h2 : sender ∈ conv.participants
    · exact Or.inr (Or.inr (by simp [h, h2]))
    · exact Or.inr (Or.inl (by simp [h, h2]))

/-- A send against an absent conversation keeps the state absent and emits
no message id. -/
theorem postMessage_none (blocks : BlockRegistry) (sender : UserId) (text : String)
    (replyTo tempId : Option Nat) (now : Nat) :
    postMessage blocks none sender text replyTo tempId now = (none, .missingText) ∨
    postMessage blocks none sender text replyTo tempId now = (none, .convNotFound) := by
  unfold postMessage
  by_cases h : text = ""
  · exact Or.inl (by simp [h])
  · exact Or.inr (by simp [h])

theorem storedAfterPost_nextMessageId (blocks : BlockRegistry) (conv : Conversation)
    (sender : UserId) (text : String) (replyTo : Option Nat) (now : Nat) :
    (storedAfterPost blocks conv sender text replyTo now).nextMessageId = allocId conv + 1 := rfl

theorem nextMessageId_le_allocId (conv : Conversation) :
    conv.nextMessageId ≤ allocId conv := by
  unfold allocId
  split <;> omega

/-- Every id returned by a sequence of sends is at least the conversation's
current counter value. -/
theorem allocatedIds_lower_bound (blocks : BlockRegistry) :
    ∀ (calls : List PostCall) (conv : Conversation) (i : Nat),
      i ∈ allocatedIds blocks (some conv) calls → conv.nextMessageId ≤ i := by
  intro calls
  induction calls with
  | nil =>
    intro conv i hi
    simp [allocatedIds] at hi
  | cons call rest ih =>
    intro conv i hi
    rcases postMessage_split blocks conv call.sender call.text call.replyTo call.tempId call.now
      with hc | hc | hc
    · simp only [allocatedIds, hc, emittedId, List.nil_append] at hi
      exact ih conv i hi
    · simp only [allocatedIds, hc, emittedId, List.nil_append] at hi
      exact ih conv i hi
    · simp only [allocatedIds, hc, emittedId, List.singleton_append] at hi
      rcases List.mem_cons.1 hi with hone | hrest
      · subst hone
        exact nextMessageId_le_allocId conv
      · have hb := ih (storedAfterPost blocks conv call.sender call.text call.replyTo call.now) i hrest
        rw [storedAfterPost_nextMessageId] at hb
        have := nextMessageId_le_allocId conv
        omega

/-- The ids returned by any sequence of sends are pairwise strictly
increasing. -/
theorem allocatedIds_sorted (blocks : BlockRegistry) :
    ∀ (calls : List PostCall) (conv? : Option Conversation),
      List.Pairwise (fun a b => a < b) (allocatedIds blocks conv? calls) := by
  intro calls
  induction calls with
  | nil =>
    intro conv?
    simp [allocatedIds]
  | cons call rest ih =>
    intro conv?
    match conv? with
    | none =>
      rcases postMessage_none blocks call.sender call.text call.replyTo call.tempId call.now
        with hc | hc
      · simp only [allocatedIds, hc, emittedId, List.nil_append]
        exact ih none
      · simp only [allocatedIds, hc, emittedId, List.nil_append]
        exact ih none
    | some conv =>
      rcases postMessage_split blocks conv call.sender call.text call.replyTo call.tempId call.now
        with hc | hc | hc
      · simp only [allocatedIds, hc, emittedId, List.nil_append]
        exact ih (some conv)
      · simp only [allocatedIds, hc, emittedId, List.nil_append]
        exact ih (some conv)
      · simp only [allocatedIds, hc, emittedId, List.singleton_append]
        refine List.pairwise_cons.2 ⟨?_, ih (some (storedAfterPost blocks conv call.sender call.text call.replyTo call.now))⟩
        intro b hb
        have := allocatedIds_lower_bound blocks rest
          (storedAfterPost blocks conv call.sender call.text call.replyTo call.now) b hb
        rw [storedAfterPost_nextMessageId] at this
        omega

/-- A message sent while the recipient has blocked the sender is never added
to the stored sequence. -/
theorem postMessage_blocked_not_stored (blocks : BlockRegistry) (conv : Conversation)
    (sender : UserId) (text : String) (replyTo tempId : Option Nat) (now : Nat)
    (hblock : otherHasBlocked blocks conv sender = true) :
    ∀ c, (postMessage blocks (some conv) sender text replyTo tempId now).1 = some c →
      c.messages = conv.messages := by
  intro c hc
  rcases postMessage_split blocks conv sender text replyTo tempId now with h | h | h <;>
    rw [h] at hc <;> injection hc with hc' <;> subst hc'
  · rfl
  · rfl
  · simp [storedAfterPost, hblock]

/-! ## Claim theorems -/

/-- C1: over any sequence of send calls on one conversation, the message ids
returned to the senders are strictly increasing with no repeats, whatever the
block registry (so suppressed sends included); moreover every successful send
returns the conversation's current `nextMessageId || 1` and persists the
counter incremented by one, unconditionally. -/
theorem postMessage_ids_strictly_increasing :
    (∀ (blocks : BlockRegistry) (conv? : Option Conversation) (calls : List PostCall),
      List.Pairwise (fun a b => a < b) (allocatedIds blocks conv? calls)) ∧
    (∀ (blocks : BlockRegistry) (conv : Conversation) (sender : UserId) (text : String)
        (replyTo tempId : Option Nat) (now : Nat),
      text ≠ "" → sender ∈ conv.participants →
      (postMessage blocks (some conv) sender text replyTo tempId now).2 =
        .sent (allocId conv) tempId ∧
      ∃ c, (postMessage blocks (some conv) sender text replyTo tempId now).1 = some c ∧
        c.nextMessageId = allocId conv + 1) := by
  constructor
  · intro blocks conv? calls
    exact allocatedIds_sorted blocks calls conv?
  · intro blocks conv sender text replyTo tempId now h hpart
    refine ⟨by simp [postMessage, h, hpart], ?_⟩
    exact ⟨storedAfterPost blocks conv sender text replyTo now,
      by simp [postMessage, h, hpart], rfl⟩

/-- C1 witness: a concrete two-send run ("hi" stored, "hello" suppressed by
the block of user 1 by user 2) returning ids [1, 2], and the first send
evaluated concretely. -/
theorem postMessage_ids_strictly_increasing_witness :
    List.Pairwise (fun a b : Nat => a < b)
      (allocatedIds blocksBA (some convAB)
        [{ sender := 1, text := "hi", replyTo := none, tempId := none, now := 0 },
         { sender := 1, text := "hello", replyTo := none, tempId := none, now := 1 }]) ∧
    ((postMessage blocksBA (some convAB) 1 "hi" none none 0).2 = .sent (allocId convAB) none ∧
      ∃ c, (postMessage blocksBA (some convAB) 1 "hi" none none 0).1 = some c ∧
        c.nextMessageId = allocId convAB + 1) :=
  ⟨postMessage_ids_strictly_increasing.1 blocksBA (some convAB) _,
   postMessage_ids_strictly_increasing.2 blocksBA convAB 1 "hi" none none 0
     (by decide) (by decide)⟩

/-- C2 counterexample: `prodW` has no offers, so offer id 99 names no live
offer, yet the accept call does not fail with NotFound: it saves the product
unchanged and answers with the normal success response. -/
theorem acceptOffer_missing_offer_cex :
    acceptOffer true (some prodW) 99 5 7 =
      (some prodW, [], .ok "Offer accepted successfully") := rfl

/-- C2 (amended): when the offer id names no live offer, the accept call
succeeds as a no-op — normal success response, product unchanged — instead of
failing NotFound; when it names a live offer (and notification emission
succeeds), the product's status becomes sold, its buyer is the offering
buyer, its transaction date is set, and the entire offer list is cleared,
however many other offers existed. -/
theorem acceptOffer_amended (product : Product) (offerId : Nat) (caller : UserId) (now : Nat) :
    (product.offerRequests.find? (fun o => o.oid == offerId) = none →
      acceptOffer true (some product) offerId caller now =
        (some product, [], .ok "Offer accepted successfully")) ∧
    (∀ offer, product.offerRequests.find? (fun o => o.oid == offerId) = some offer →
      acceptOffer true (some product) offerId caller now =
        (some { product with
                status := "sold",
                buyer := some offer.buyer,
                transactionDate := some now,
                offerRequests := [] },
         [{ userId := offer.buyer, type := "offer_accepted",
            message := "Your offer for " ++ product.name ++ " was accepted!",
            productId := some product.pid }],
         .ok "Offer accepted successfully")) := by
  constructor
  · intro h
    simp [acceptOffer, h]
  · intro offer h
    simp [acceptOffer, h]

/-- C2 witness: accepting the live offer of `prodOffered` concretely. -/
theorem acceptOffer_amended_witness :
    acceptOffer true (some prodOffered) 1 4 11 =
      (some { prodOffered with
              status := "sold",
              buyer := some 3,
              transactionDate := some 11,
              offerRequests := [] },
       [{ userId := 3, type := "offer_accepted",
          message := "Your offer for Chair was accepted!",
          productId := some 10 }],
       .ok "Offer accepted successfully") := by
  have h := (acceptOffer_amended prodOffered 1 4 11).2
    { oid := 1, buyer := 3, offerPrice := 500 } (by decide)
  exact h

/-- C3 counterexample: user 2 blocks user 1 after message 1 ("hi") is stored;
user 1's next send is allocated id 2 but suppressed, and — contrary to the
claim — user 1's own subsequent fetch does not include it: the fetch returns
only message 1. -/
theorem blocked_sender_fetch_cex :
    (postMessage blocksBA
        (postMessage [] (some convAB) 1 "hi" none none 0).1
        1 "hello" none none 1).2 = .sent 2 none ∧
    fetchMessages blocksBA
        (postMessage blocksBA
          (postMessage [] (some convAB) 1 "hi" none none 0).1
          1 "hello" none none 1).1
        1 none =
      .ok [{ messageId := 1, sender := 1, text := "hi", type := "message",
             replyTo := none, productId := none, createdAt := 0 }] := by
  exact ⟨rfl, rfl⟩

/-- C3 (amended): when the other participant has blocked the reader, the
fetch returns exactly the candidate messages the reader authored plus the
product-kind ones, and no others; but a message sent while the recipient has
blocked the sender is never stored, so it is absent from the sender's own
subsequent fetch as well as from the blocker's (only the sender's earlier,
stored messages remain visible to them). -/
theorem fetch_visibility_amended :
    (∀ (blocks : BlockRegistry) (conv : Conversation) (reader : UserId) (lastId : Option Nat),
      reader ∈ conv.participants →
      otherHasBlocked blocks conv reader = true →
      fetchMessages blocks (some conv) reader lastId =
        .ok (visibleToBlocked (candidateMessages conv lastId) reader) ∧
      ∀ m, m ∈ visibleToBlocked (candidateMessages conv lastId) reader ↔
        (m ∈ candidateMessages conv lastId ∧ (m.sender = reader ∨ m.type = "product"))) ∧
    (∀ (blocks : BlockRegistry) (conv : Conversation) (sender : UserId) (text : String)
        (replyTo tempId : Option Nat) (now : Nat),
      otherHasBlocked blocks conv sender = true →
      ∀ c, (postMessage blocks (some conv) sender text replyTo tempId now).1 = some c →
        c.messages = conv.messages) := by
  constructor
  · intro blocks conv reader lastId hpart hblock
    constructor
    · simp [fetchMessages, hpart, hblock]
    · intro m
      simp [visibleToBlocked, List.mem_filter]
  · intro blocks conv sender text replyTo tempId now hblock
    exact postMessage_blocked_not_stored blocks conv sender text replyTo tempId now hblock

/-- C3 witness: the filter characterization evaluated on the concrete
conversation reached in the counterexample scenario. -/
theorem fetch_visibility_amended_witness :
    fetchMessages blocksBA (some convAfterHi) 1 none =
      .ok (visibleToBlocked (candidateMessages convAfterHi none) 1) :=
  (fetch_visibility_amended.1 blocksBA convAfterHi 1 none (by decide) (by decide)).1

/-- C4: the response of the send-message route does not depend on the block
registry at all: an execution where the recipient has blocked the sender
returns exactly the same response — same success payload, same `messageId`,
same `tempId` — as one where they have not, so the sender cannot detect the
block from the response. -/
theorem postMessage_response_independent_of_blocks (b1 b2 : BlockRegistry)
    (conv? : Option Conversation) (sender : UserId) (text : String)
    (replyTo tempId : Option Nat) (now : Nat) :
    (postMessage b1 conv? sender text replyTo tempId now).2 =
      (postMessage b2 conv? sender text replyTo tempId now).2 := by
  unfold postMessage
  by_cases h : text = ""
  · simp [h]
  · cases conv? with
    | none => simp [h]
    | some conv =>
      by_cases h2 : sender ∈ conv.participants <;> simp [h, h2]

/-- C5 counterexample: the seller (user 5) offering a negative price on their
own already-sold product violates all three claimed preconditions at once
(self-offer, status not available, non-positive price), yet the make-offer
handler accepts it: the offer is stored and the response is the normal
success. -/
theorem makeOffer_no_precondition_checks_cex :
    makeOffer true (some prodSoldW) 5 "Seller" (some (-50)) 3 =
      (some { prodSoldW with
              offerRequests := [{ oid := 3, buyer := 5, offerPrice := -50 }] },
       [{ userId := 5, type := "offer_received",
          message := "You received an offer of -50 for Desk from Seller",
          productId := some 11 }],
       .ok "Offer submitted successfully") := rfl

/-- C5 (amended): the make-offer handler validates only the price, and only
against the falsy/NaN check: a missing or non-numeric price and a zero price
are rejected with 400, leaving the state untouched; any other price —
negative ones included — from any caller — the seller included — on a found
product in any status replaces the caller's previous offer with the new one
and succeeds. -/
theorem makeOffer_amended (notifyOk : Bool) (product : Product) (caller : UserId)
    (callerName : String) (newOid : Nat) :
    (makeOffer notifyOk (some product) caller callerName none newOid =
      (some product, [], .badRequest "Valid offer price is required")) ∧
    (makeOffer notifyOk (some product) caller callerName (some 0) newOid =
      (some product, [], .badRequest "Valid offer price is required")) ∧
    (∀ price : Int, price ≠ 0 →
      (makeOffer true (some product) caller callerName (some price) newOid).1 =
        some { product with
               offerRequests :=
                 product.offerRequests.filter (fun o => !(o.buyer == caller)) ++
                   [{ oid := newOid, buyer := caller, offerPrice := price }] } ∧
      (makeOffer true (some product) caller callerName (some price) newOid).2.2 =
        .ok "Offer submitted successfully") := by
  refine ⟨rfl, rfl, ?_⟩
  intro price hp
  constructor
  · simp [makeOffer, hp]
  · simp [makeOffer, hp]

/-- C5 witness: buyer 3's concrete offer of 500 on `prodW`. -/
theorem makeOffer_amended_witness :
    (makeOffer true (some prodW) 3 "A" (some 500) 1).1 =
      some { prodW with
             offerRequests :=
               prodW.offerRequests.filter (fun o => !(o.buyer == 3)) ++
                 [{ oid := 1, buyer := 3, offerPrice := 500 }] } ∧
    (makeOffer true (some prodW) 3 "A" (some 500) 1).2.2 =
      .ok "Offer submitted successfully" :=
  (makeOffer_amended true prodW 3 "A" 1).2.2 500 (by decide)

/-- C6 counterexample: user 9 is not the seller (user 5) of `prodOffered`,
yet accepting offer 1 as user 9 is not rejected with Forbidden: it succeeds
and marks the product sold to buyer 3. -/
theorem acceptOffer_nonseller_succeeds_cex :
    (9 : UserId) ≠ prodOffered.seller ∧
    acceptOffer true (some prodOffered) 1 9 20 =
      (some { prodOffered with
              status := "sold",
              buyer := some 3,
              transactionDate := some 20,
              offerRequests := [] },
       [{ userId := 3, type := "offer_accepted",
          message := "Your offer for Chair was accepted!",
          productId := some 10 }],
       .ok "Offer accepted successfully") := by
  exact ⟨by decide, rfl⟩

/-- C6 (amended): the accept and decline handlers never consult the calling
user at all: any caller — the seller or anyone else — obtains exactly the
same persisted product, the same notifications, and the same response. -/
theorem offerDecisions_ignore_caller (notifyOk : Bool) (product? : Option Product)
    (offerId : Nat) (now : Nat) (c1 c2 : UserId) :
    acceptOffer notifyOk product? offerId c1 now =
      acceptOffer notifyOk product? offerId c2 now ∧
    declineOffer notifyOk product? offerId c1 =
      declineOffer notifyOk product? offerId c2 :=
  ⟨rfl, rfl⟩

/-- C7 counterexample: after the operation sequence of `soldThenOffered`
(offer, accept, then a fresh offer on the sold product), the product's status
is "sold" while its offer list is non-empty, violating the claimed
invariant. -/
theorem offers_on_sold_product_cex :
    soldThenOffered.map (fun p => p.status) = some "sold" ∧
    soldThenOffered.map (fun p => p.offerRequests) =
      some [{ oid := 2, buyer := 4, offerPrice := 600 }] := by
  exact ⟨rfl, rfl⟩

/-- C7 (amended): a successful accept does clear the offer list entirely
while setting the status to sold, but the claimed invariant fails: the
make-offer handler never checks the product status, so a non-zero-priced
offer on a product of any status — reserved or sold — leaves its status
unchanged and its offer list non-empty. -/
theorem offers_status_invariant_amended (product : Product) :
    (∀ (offerId : Nat) (caller : UserId) (now : Nat) offer,
      product.offerRequests.find? (fun o => o.oid == offerId) = some offer →
      ∃ p, (acceptOffer true (some product) offerId caller now).1 = some p ∧
        p.offerRequests = [] ∧ p.status = "sold") ∧
    (∀ (caller : UserId) (callerName : String) (price : Int) (newOid : Nat),
      price ≠ 0 →
      ∃ p, (makeOffer true (some product) caller callerName (some price) newOid).1 = some p ∧
        p.status = product.status ∧ p.offerRequests ≠ []) := by
  constructor
  · intro offerId caller now offer h
    refine ⟨{ product with
              status := "sold",
              buyer := some offer.buyer,
              transactionDate := some now,
              offerRequests := [] }, ?_, rfl, rfl⟩
    simp [acceptOffer, h]
  · intro caller callerName price newOid hp
    refine ⟨{ product with
              offerRequests :=
                product.offerRequests.filter (fun o => !(o.buyer == caller)) ++
                  [{ oid := newOid, buyer := caller, offerPrice := price }] }, ?_, rfl, ?_⟩
    · simp [makeOffer, hp]
    · simp

/-- C7 witness: the two branches evaluated concretely — accepting the live
offer of `prodOffered`, and buyer 4's offer on the sold product
`prodSoldW`. -/
theorem offers_status_invariant_amended_witness :
    (∃ p, (acceptOffer true (some prodOffered) 1 5 20).1 = some p ∧
      p.offerRequests = [] ∧ p.status = "sold") ∧
    (∃ p, (makeOffer true (some prodSoldW) 4 "B" (some 600) 2).1 = some p ∧
      p.status = prodSoldW.status ∧ p.offerRequests ≠ []) :=
  ⟨(offers_status_invariant_amended prodOffered).1 1 5 20
      { oid := 1, buyer := 3, offerPrice := 500 } (by decide),
   (offers_status_invariant_amended prodSoldW).2 4 "B" 600 2 (by decide)⟩

/-- C8 counterexample: with the notification store failing, buyer 3's valid
offer on `prodW` is persisted (the product was saved before the emit), yet
the caller does not receive the normal success result but the catch-all
server error; and accepting the live offer of `prodOffered` under the same
failure leaves the product completely unchanged — the primary state change
does not complete. -/
theorem notification_failure_fails_caller_cex :
    makeOffer false (some prodW) 3 "A" (some 500) 1 =
      (some { prodW with
              offerRequests := [{ oid := 1, buyer := 3, offerPrice := 500 }] },
       [], .serverError) ∧
    acceptOffer false (some prodOffered) 1 5 20 =
      (some prodOffered, [], .serverError) := by
  exact ⟨rfl, rfl⟩

/-- C8 (amended): a notification-emission failure is not swallowed: it fails
the triggering offer operation with the catch-all server error.  For
make-offer the offer insertion was already saved and survives, but the caller
still gets the error; for accept and decline the emission failure occurs
before the product is saved, so the primary state change does not happen at
all. -/
theorem notification_failure_amended (product : Product) :
    (∀ (caller : UserId) (callerName : String) (price : Int) (newOid : Nat),
      price ≠ 0 →
      makeOffer false (some product) caller callerName (some price) newOid =
        (some { product with
                offerRequests :=
                  product.offerRequests.filter (fun o => !(o.buyer == caller)) ++
                    [{ oid := newOid, buyer := caller, offerPrice := price }] },
         [], .serverError)) ∧
    (∀ (offerId : Nat) (caller : UserId) (now : Nat) offer,
      product.offerRequests.find? (fun o => o.oid == offerId) = some offer →
      acceptOffer false (some product) offerId caller now =
        (some product, [], .serverError)) ∧
    (∀ (offerId : Nat) (caller : UserId) offer,
      product.offerRequests.find? (fun o => o.oid == offerId) = some offer →
      declineOffer false (some product) offerId caller =
        (some product, [], .serverError)) := by
  refine ⟨?_, ?_, ?_⟩
  · intro caller callerName price newOid hp
    simp [makeOffer, hp]
  · intro offerId caller now offer h
    simp [acceptOffer, h]
  · intro offerId caller offer h
    simp [declineOffer, h]

/-- C8 witness: the three failure branches evaluated concretely on `prodW`
and `prodOffered`. -/
theorem notification_failure_amended_witness :
    (makeOffer false (some prodW) 3 "A" (some 500) 1 =
      (some { prodW with
              offerRequests :=
                prodW.offerRequests.filter (fun o => !(o.buyer == 3)) ++
                  [{ oid := 1, buyer := 3, offerPrice := 500 }] },
       [], .serverError)) ∧
    (acceptOffer false (some prodOffered) 1 5 20 =
      (some prodOffered, [], .serverError)) ∧
    (declineOffer false (some prodOffered) 1 5 =
      (some prodOffered, [], .serverError)) :=
  ⟨(notification_failure_amended prodW).1 3 "A" 500 1 (by decide),
   (notification_failure_amended prodOffered).2.1 1 5 20
      { oid := 1, buyer := 3, offerPrice := 500 } (by decide),
   (notification_failure_amended prodOffered).2.2 1 5
      { oid := 1, buyer := 3, offerPrice := 500 } (by decide)⟩

/-- C9 counterexample: with user 2 already blocked by user 1, a repeated
block of the same target is not idempotent: the route answers 400
"User is already blocked" instead of succeeding. -/
theorem blockUser_repeat_errors_cex :
    blockUser [(1, 2)] 1 2 = ([(1, 2)], .badRequest "User is already blocked") := rfl

/-- C9 (amended): the block route rejects a self-block; a repeated block of
an already-blocked target is rejected with an "already blocked" error rather
than succeeding idempotently, leaving the registry unchanged (so still
exactly one entry for that ordered pair); a first block of a distinct target
appends the entry and succeeds. -/
theorem blockUser_amended (blocks : BlockRegistry) (caller target : UserId) :
    (caller = target →
      blockUser blocks caller target = (blocks, .badRequest "You cannot block yourself")) ∧
    (caller ≠ target → (caller, target) ∈ blocks →
      blockUser blocks caller target = (blocks, .badRequest "User is already blocked")) ∧
    (caller ≠ target → (caller, target) ∉ blocks →
      blockUser blocks caller target =
        (blocks ++ [(caller, target)], .ok "User blocked successfully")) := by
  refine ⟨?_, ?_, ?_⟩
  · intro h
    simp [blockUser, h]
  · intro h hmem
    simp [blockUser, isBlockedBy, h, hmem]
  · intro h hmem
    simp [blockUser, isBlockedBy, h, hmem]

/-- C9 witness: the three branches evaluated concretely. -/
theorem blockUser_amended_witness :
    blockUser [(1, 2)] 1 2 = ([(1, 2)], .badRequest "User is already blocked") ∧
    blockUser [] 3 3 = ([], .badRequest "You cannot block yourself") ∧
    blockUser [] 1 2 = ([] ++ [(1, 2)], .ok "User blocked successfully") :=
  ⟨(blockUser_amended [(1, 2)] 1 2).2.1 (by decide) (by decide),
   (blockUser_amended [] 3 3).1 rfl,
   (blockUser_amended [] 1 2).2.2 (by decide) (by decide)⟩

/-- C10: the product-reply send never consults the block registry — its
whole outcome is identical under any two registries — and for any participant
sender it allocates the next message id, stores the preview message, and
succeeds; by contrast a text-message send under a recipient-side block stores
nothing (the counter still advances). -/
theorem productReply_skips_block_check :
    (∀ (b1 b2 : BlockRegistry) (conv? : Option Conversation) (sender : UserId)
        (productId? : Option Nat) (now : Nat),
      postProductReply b1 conv? sender productId? now =
        postProductReply b2 conv? sender productId? now) ∧
    (∀ (blocks : BlockRegistry) (conv : Conversation) (sender : UserId) (pid now : Nat),
      sender ∈ conv.participants →
      postProductReply blocks (some conv) sender (some pid) now =
        (some { conv with
                messages := conv.messages ++ [mkProductMessage conv sender pid now],
                nextMessageId := allocId conv + 1 },
         .sent (allocId conv))) ∧
    (∀ (blocks : BlockRegistry) (conv : Conversation) (sender : UserId) (text : String)
        (replyTo tempId : Option Nat) (now : Nat),
      otherHasBlocked blocks conv sender = true →
      ∀ c, (postMessage blocks (some conv) sender text replyTo tempId now).1 = some c →
        c.messages = conv.messages) := by
  refine ⟨?_, ?_, ?_⟩
  · intro b1 b2 conv? sender productId? now
    rfl
  · intro blocks conv sender pid now hpart
    simp [postProductReply, hpart]
  · intro blocks conv sender text replyTo tempId now hblock
    exact postMessage_blocked_not_stored blocks conv sender text replyTo tempId now hblock

/-- C10 witness: a concrete product reply from user 1 while user 2 has
blocked user 1 — stored and acknowledged all the same. -/
theorem productReply_skips_block_check_witness :
    postProductReply blocksBA (some convAB) 1 (some 42) 3 =
      (some { convAB with
              messages := convAB.messages ++ [mkProductMessage convAB 1 42 3],
              nextMessageId := allocId convAB + 1 },
       .sent (allocId convAB)) :=
  (productReply_skips_block_check.2.1 blocksBA convAB 1 42 3 (by decide))

end OlxCore
